import Mathlib

/-!
Shallow embedding of the station-planning repository
(`src/src/indo/calculation.py` and the `calculate_stations` branch of
`src/app.py`), together with theorems settling the specification claims.

Modelling conventions:
* Python floats appearing in the calculation pipeline are modelled as exact
  rationals; `NaN` (which `pd.to_numeric(..., errors="coerce")` produces for
  non-numeric cells) is modelled by `none` in `PyFloat := Option ℚ`, with
  NaN-absorbing arithmetic, exactly as IEEE NaN propagates through the
  `+`, `*`, `/` operations the code performs.
* Spreadsheet cells (gspread returns every cell as a string) are modelled by
  `Cell`: a cell either parses numerically to a rational or it does not.
* Python exceptions are modelled by `Except String`; the `try/except` in
  `calculate_swap_stations` is the catch-all converting them to an error
  payload.
* Python `round(x, n)` is round-half-to-even on exact rationals, `int(x)` on a
  float is truncation toward zero, and `int(s)` on a string succeeds exactly
  when the cell parses to an integer-valued number.
-/

namespace StationPlanning

set_option maxRecDepth 8000

/-- Python float values flowing through the pipeline: `none` models IEEE NaN
(produced by `pd.to_numeric(..., errors="coerce")` on non-numeric cells),
`some q` an ordinary (exactly represented) numeric value. -/
abbrev PyFloat := Option ℚ

/-- Addition with NaN propagation (`NaN + x = x + NaN = NaN`). -/
def pyAdd : PyFloat → PyFloat → PyFloat
  | some a, some b => some (a + b)
  | _, _ => none

/-- Multiplication with NaN propagation. -/
def pyMul : PyFloat → PyFloat → PyFloat
  | some a, some b => some (a * b)
  | _, _ => none

/-- Division of a pipeline value by a known (nonzero at every use site)
rational divisor, with NaN propagation. -/
def pyDiv (x : PyFloat) (d : ℚ) : PyFloat := x.map (fun a => a / d)

/-- Round-half-to-even to an integer, the tie-breaking rule of Python's
built-in `round`. -/
def rhe (x : ℚ) : ℤ :=
  let f := ⌊x⌋
  let r := x - (f : ℚ)
  if r < 1/2 then f
  else if r > 1/2 then f + 1
  else if f % 2 = 0 then f else f + 1

/-- Python `round(x, n)` for a non-negative number of decimal digits
(the code uses `n = 2` and `n = 0`); the result is again a float. -/
def pyRoundQ (x : ℚ) (n : ℕ) : ℚ := (rhe (x * 10 ^ n) : ℚ) / 10 ^ n

/-- Python `round` lifted to pipeline values: `round(NaN, n) = NaN`. -/
def pyRound (x : PyFloat) (n : ℕ) : PyFloat := x.map (fun a => pyRoundQ a n)

/-- Truncation toward zero, the behaviour of Python `int()` on a float. -/
def truncQ (x : ℚ) : ℤ := if 0 ≤ x then ⌊x⌋ else ⌈x⌉

/-- Python `int()` applied to a float: truncation toward zero, raising
`ValueError` on NaN (`int(float("nan"))` raises). -/
def pyIntOfFloat : PyFloat → Except String ℤ
  | some a => .ok (truncQ a)
  | none => .error "cannot convert float NaN to integer"

/-- Does one character list start with another? Helper for the substring
test below (kept structural so that concrete instances evaluate). -/
def startsChars : List Char → List Char → Bool
  | [], _ => true
  | _ :: _, [] => false
  | p :: ps, c :: cs => p == c && startsChars ps cs

/-- Substring containment on character lists, the Python `in` operator on
strings. -/
def containsChars (needle : List Char) : List Char → Bool
  | [] => needle.isEmpty
  | c :: cs => startsChars needle (c :: cs) || containsChars needle cs

/-- The marker test of the reference loader, Python
`'Vehicle Mix' in str(cell)`. -/
def containsMarker (s : String) : Bool := containsChars "Vehicle Mix".data s.data

/-- The whitespace characters Python `str.strip()` removes (the common
ASCII ones suffice for sheet data). -/
def isPySpace (c : Char) : Bool := c == ' ' || c == '\t' || c == '\n' || c == '\r'

/-- Drop leading whitespace from a character list. -/
def dropWS : List Char → List Char
  | [] => []
  | c :: cs => if isPySpace c then dropWS cs else c :: cs

/-- Python `str.lower()` on one ASCII character. -/
def lowerChar (c : Char) : Char := if c.isUpper then Char.ofNat (c.toNat + 32) else c

/-- Python `str.lower()`. -/
def pyLower (s : String) : String := String.mk (s.data.map lowerChar)

/-- City-name normalization of the fleet loader (calculation.py lines
188-190): `str.strip()` then `str.lower()`. -/
def normalizeCity (s : String) : String :=
  pyLower (String.mk (dropWS ((dropWS s.data.reverse).reverse)))

/-- One spreadsheet cell, as returned (always as a string) by the sheet
client. `num raw q` is a cell whose text `raw` parses numerically to `q`;
`str raw` is a cell whose text does not parse as a number (this includes the
empty string of a blank cell). -/
inductive Cell where
  | num (raw : String) (q : ℚ)
  | str (raw : String)
deriving DecidableEq

/-- The text content of a cell. -/
def Cell.text : Cell → String
  | .num raw _ => raw
  | .str raw => raw

/-- Lenient numeric parse, `pd.to_numeric(cell, errors="coerce")`:
a non-numeric cell becomes NaN (`none`). -/
def Cell.toNumeric : Cell → Option ℚ
  | .num _ q => some q
  | .str _ => none

/-- Numeric parse with zero-fill, `pd.to_numeric(col, errors="coerce").fillna(0)`,
applied to every fleet-table column except the city column. -/
def Cell.toCount (c : Cell) : ℚ := (c.toNumeric).getD 0

/-- Python `int()` on the raw capacity cell text: succeeds exactly when the
cell parses to an integer-valued number, raising `ValueError` otherwise
(in particular on non-numeric text and on a blank cell). -/
def capInt : Cell → Except String ℤ
  | .num _ q => if q.den = 1 then .ok q.num else .error "invalid literal for int with base 10"
  | .str _ => .error "invalid literal for int with base 10"

/-- The stations-required step of `calculate_stations_required`
(calculation.py lines 96-101): guarded division with a zero fallback. -/
def stationsRequiredCalc (totalEnergyRequired : PyFloat)
    (swappableEnergyPerStation : ℤ) (stationUtilization : ℚ) : PyFloat :=
  if 0 < swappableEnergyPerStation ∧ 0 < stationUtilization then
    pyDiv totalEnergyRequired ((swappableEnergyPerStation : ℚ) * stationUtilization)
  else
    some 0

/-- One processed row of the fleet table: the normalized city name plus the
per-vehicle-type counts (every count cell already numeric after the loader's
coerce-and-fill-zero step; the city cell is a string and is kept apart). -/
structure FleetRow where
  city : String
  counts : List (String × ℚ)
deriving DecidableEq

/-- One parsed row of the vehicle-mix reference table; either field is NaN
(`none`) when its cell did not parse numerically. -/
structure VehicleSpec where
  avgKmPerDay : PyFloat
  whPerKm : PyFloat
deriving DecidableEq

/-- The vehicle-mix reference table keyed by vehicle-type name, in sheet
order (a Python dict preserves insertion order). -/
abbrev SpecTable := List (String × VehicleSpec)

/-- Per-location parameters as they arrive in the `entities` dict; either
field may be absent. -/
structure CityParams where
  stationUtilizationPercentage : Option ℚ
  offRoadVehiclePercentage : Option ℚ
deriving DecidableEq

/-- The `entities` argument: a dict from (lowercased, by `app.py`) location
name to its parameters. -/
abbrev Entities := List (String × CityParams)

/-- Fleet data loader `_get_vehicle_data_from_sheets` (calculation.py lines
163-200): reads worksheet 0 as header plus rows, raising on fewer than two
raw rows; parses every non-city column leniently with zero fill; normalizes
(trims and lowercases) the city text; when the filter is not `["all"]`,
keeps only requested cities and raises if none match. The first column is
the city column. -/
def getVehicleDataFromSheets :
    List (List Cell) → List String → Except String (List FleetRow)
  | [], _ => .error "Insufficient data in Google Sheets"
  | headers :: values, cities =>
    if values = [] then .error "Insufficient data in Google Sheets"
    else
      let vehicleTypes := (headers.drop 1).map Cell.text
      let rows := values.map (fun r =>
        { city := normalizeCity (r.headD (Cell.str "")).text
          counts := vehicleTypes.zip ((r.drop 1).map Cell.toCount) : FleetRow })
      if cities ≠ ["all"] then
        let filtered := rows.filter (fun row => cities.contains row.city)
        if filtered = [] then
          .error "No matching cities found"
        else
          .ok filtered
      else
        .ok rows

/-- Reference data loader `_get_swappable_energy_per_station_and_vehicle_mix`
(calculation.py lines 126-161): reads cell H5 (row 4, column 7) of worksheet
1 as the raw capacity cell, scans for the first row containing the marker
text `Vehicle Mix`, and parses the rows after it (skipping the marker row
itself as header, and rows with an empty first column) into the spec table,
coercing the two numeric columns leniently (non-numeric becomes NaN). When
the marker is never found — or is found at row index 0, where the Python
truthiness test `if vehicle_start:` fails and the unbound `vehicle_df` later
raises `NameError` — the wrapping handler raises `ValueError`. -/
def getSwappableEnergy (grid : List (List Cell)) :
    Except String (Cell × SpecTable) :=
  let h5 := (grid.getD 4 []).getD 7 (Cell.str "")
  match grid.findIdx? (fun row =>
      row.any (fun c => containsMarker c.text)) with
  | some i =>
    if i ≠ 0 then
      let vehicleData := grid.drop i
      let vehicleRows := (vehicleData.drop 1).filter
        (fun r => (r.headD (Cell.str "")).text ≠ "")
      let specs : SpecTable := vehicleRows.map (fun r =>
        ((r.headD (Cell.str "")).text,
         { avgKmPerDay := (r.getD 1 (Cell.str "")).toNumeric
           whPerKm := (r.getD 2 (Cell.str "")).toNumeric }))
      .ok (h5, specs)
    else
      .error "Failed to retrieve swappable energy per station from Google Sheets"
  | none =>
    .error "Failed to retrieve swappable energy per station from Google Sheets"

/-- Body of the energy-demand loop of `_calculate_city_energy_demand`
(calculation.py lines 211-228): a vehicle type absent from the city row is
skipped; otherwise `count * (1 - offRoadPercent) * avgKmPerDay * whPerKm /
1000` is added to the running total (NaN spec fields propagate through the
product and the sum). -/
def energyStep (counts : List (String × ℚ)) (offRoadPercent : ℚ)
    (total : PyFloat) (vs : String × VehicleSpec) : PyFloat :=
  match counts.lookup vs.1 with
  | none => total
  | some count =>
    let effectiveVehicles := count * (1 - offRoadPercent)
    let energyRequired :=
      pyDiv (pyMul (pyMul (some effectiveVehicles) vs.2.avgKmPerDay) vs.2.whPerKm) 1000
    pyAdd total energyRequired

/-- Energy-demand computation `_calculate_city_energy_demand` (calculation.py
lines 202-230): iterate over the spec table, folding `energyStep` over the
city row starting from zero. -/
def calculateCityEnergyDemand (cityRow : FleetRow) (vehicleSpecs : SpecTable)
    (offRoadPercent : ℚ) : PyFloat :=
  vehicleSpecs.foldl (energyStep cityRow.counts offRoadPercent) (some 0)

/-- Python `entities.get(city)` followed by an attribute access on its
result: a missing key yields `None`, and the subsequent `.get` on `None`
raises `AttributeError`. -/
def lookupEntity (entities : Entities) (city : String) : Except String CityParams :=
  match entities.lookup city with
  | some p => .ok p
  | none => .error "AttributeError: NoneType object has no attribute get"

/-- Python `config.get(field) / 100`: a missing field yields `None`, and
dividing `None` by a number raises `TypeError`. -/
def divBy100 : Option ℚ → Except String ℚ
  | some q => .ok (q / 100)
  | none => .error "TypeError: unsupported operand types for division"

/-- Total vehicle count of a row (calculation.py line 103): the sum of every
numeric-valued cell of the row; after the loader every count cell is numeric,
and the city cell is a string, so this is the sum of all count columns. -/
def totalVehiclesOfRow (row : FleetRow) : ℚ := (row.counts.map (fun p => p.2)).sum

/-- One entry of the per-city results list built by
`calculate_stations_required` (calculation.py lines 105-113); the `vehicles`
echo of the raw row dict is omitted as presentation-only. -/
structure ResultRow where
  city : String
  totalVehicles : ℚ
  operationalVehicles : ℚ
  energyRequired : PyFloat
  swappableEnergyPerStation : ℤ
  stationsRequired : PyFloat
deriving DecidableEq

/-- The per-row body of the loop in `calculate_stations_required`
(calculation.py lines 78-113): look up the per-city (or sentinel `all`)
parameters, convert percentages to fractions, compute energy demand and the
guarded stations-required value, and assemble the result entry with its
rounded display fields. -/
def processRow (entities : Entities) (cities : List String) (vehicleSpecs : SpecTable)
    (swappableEnergyPerStation : ℤ) (row : FleetRow) : Except String ResultRow :=
  match (if cities ≠ ["all"] then lookupEntity entities row.city
         else lookupEntity entities "all") with
  | .error m => .error m
  | .ok params =>
    match divBy100 params.offRoadVehiclePercentage with
    | .error m => .error m
    | .ok offRoadVehiclePercentage =>
      match divBy100 params.stationUtilizationPercentage with
      | .error m => .error m
      | .ok stationUtilizationPercentage =>
        let totalEnergyRequired :=
          calculateCityEnergyDemand row vehicleSpecs offRoadVehiclePercentage
        let stationsRequired :=
          stationsRequiredCalc totalEnergyRequired swappableEnergyPerStation
            stationUtilizationPercentage
        let totalVehicles := totalVehiclesOfRow row
        .ok { city := row.city
              totalVehicles := totalVehicles
              operationalVehicles := totalVehicles * (1 - offRoadVehiclePercentage)
              energyRequired := pyRound totalEnergyRequired 2
              swappableEnergyPerStation := swappableEnergyPerStation
              stationsRequired := pyRound stationsRequired 0 }

/-- Run a fallible computation over each list element in order, collecting
the results and propagating the first exception — the semantics of the
Python `for` loop appending to `results`. -/
def mapExcept {α β : Type} (f : α → Except String β) : List α → Except String (List β)
  | [] => .ok []
  | a :: as =>
    match f a with
    | .error m => .error m
    | .ok b =>
      match mapExcept f as with
      | .error m => .error m
      | .ok bs => .ok (b :: bs)

/-- The city filter of `calculate_stations_required` (calculation.py line
71): the entities keys, defaulting to the sentinel `["all"]` when the dict
is empty or absent. -/
def citiesOf (entities : Entities) : List String :=
  if entities.isEmpty then ["all"] else entities.map (fun p => p.1)

/-- The detailed calculation `calculate_stations_required` (calculation.py
lines 52-124): derive the city filter from the entities keys (defaulting to
`["all"]` when the dict is empty), load the fleet table and the reference
data, convert the raw capacity cell with `int()`, and process every row; any
exception propagates (the function re-raises). -/
def calculate_stations_required (sheet0 sheet1 : List (List Cell))
    (entities : Entities) : Except String (List ResultRow) :=
  match getVehicleDataFromSheets sheet0 (citiesOf entities) with
  | .error m => .error m
  | .ok df =>
    match getSwappableEnergy sheet1 with
    | .error m => .error m
    | .ok ref =>
      match capInt ref.1 with
      | .error m => .error m
      | .ok swappableEnergyPerStation =>
        mapExcept (processRow entities (citiesOf entities) ref.2
          swappableEnergyPerStation) df

/-- The success payload of `calculate_swap_stations`: the per-city breakdown
keyed by city plus the integer grand total. -/
structure FinalResult where
  cityBreakdown : List (String × ResultRow)
  totalStationsRequired : ℤ
deriving DecidableEq

/-- The outcome of `calculate_swap_stations`: a result payload or an error
payload — the catch-all `except` turns every exception into the latter. -/
inductive SwapOutcome where
  | ok (r : FinalResult)
  | error (msg : String)
deriving DecidableEq

/-- Entrypoint `calculate_swap_stations` (calculation.py lines 233-288): run
the detailed calculation, sum the per-row (rounded) `stations_required`
fields, truncate the float total with `int()` (which raises on NaN), and
shape the payload; every exception anywhere in the pipeline is caught and
converted to an error payload. -/
def calculate_swap_stations (entities : Entities)
    (sheet0 sheet1 : List (List Cell)) : SwapOutcome :=
  match calculate_stations_required sheet0 sheet1 entities with
  | .error m => .error m
  | .ok rows =>
    match pyIntOfFloat
        (rows.foldl (fun acc r => pyAdd acc r.stationsRequired) (some 0)) with
    | .error m => .error m
    | .ok total =>
      .ok { cityBreakdown := rows.map (fun r => (r.city, r))
            totalStationsRequired := total }

/-- One location object returned by the entity-extraction oracle
(`app.py` line 162): a display name plus the two optional parameters. -/
structure ExtractedLocation where
  name : String
  stationUtilizationPercentage : Option ℚ
  offRoadVehiclePercentage : Option ℚ
deriving DecidableEq

/-- Output of the confirmation-state oracle (`app.py` line 188; any
unparseable output already defaults to `not_confirmed` upstream). -/
inductive ConfirmationState where
  | confirmed
  | notConfirmed
deriving DecidableEq

/-- Build the entity map from the extracted locations (`app.py` line 163):
keyed by the lowercased name, keeping the remaining fields. -/
def buildEntityMap (locs : List ExtractedLocation) : Entities :=
  locs.map (fun d =>
    (pyLower d.name,
     { stationUtilizationPercentage := d.stationUtilizationPercentage
       offRoadVehiclePercentage := d.offRoadVehiclePercentage }))

/-- The missing-field names of one location, in the order `app.py` lines
166-170 checks them: station utilization first, then off-road percentage. -/
def missingFieldsFor (config : CityParams) : List String :=
  (if config.stationUtilizationPercentage.isNone
   then ["station utilization percentage"] else []) ++
  (if config.offRoadVehiclePercentage.isNone
   then ["off road vehicle percentage"] else [])

/-- The missing-field message for one location (`app.py` lines 172-174):
field names joined with `and`. -/
def missingMessageFor (city : String) (config : CityParams) : String :=
  "Please provide " ++ String.intercalate " and " (missingFieldsFor config) ++
    " for \x27" ++ city ++ "\x27."

/-- The validation loop of `app.py` lines 164-174: one message per location
that is missing at least one required field. -/
def missingInfoMessages (entityMap : Entities) : List String :=
  entityMap.filterMap (fun p =>
    if missingFieldsFor p.2 ≠ [] then some (missingMessageFor p.1 p.2) else none)

/-- The observable outcome of one `calculate_stations` turn. -/
inductive TurnOutcome where
  | missingInfo (response : String)
  | reviewRequest
  | calculated (result : SwapOutcome)
deriving DecidableEq

/-- The `calculate_stations` branch of one conversation turn (`app.py` lines
156-211): build the entity map, validate; when any location has missing
fields, short-circuit with the combined missing-info response (consulting
neither the confirmation oracle nor the calculation service); otherwise gate
on the confirmation state, calculating only when confirmed. -/
def calculateStationsTurn (locs : List ExtractedLocation)
    (confirmation : ConfirmationState) (sheet0 sheet1 : List (List Cell)) :
    TurnOutcome :=
  let entityMap := buildEntityMap locs
  let msgs := missingInfoMessages entityMap
  if msgs ≠ [] then
    .missingInfo
      ("I need some more information to proceed with the calculation. Please provide the following details for each location:" ++
        "\n\n" ++ String.intercalate "\n" msgs)
  else
    match confirmation with
    | .confirmed => .calculated (calculate_swap_stations entityMap sheet0 sheet1)
    | .notConfirmed => .reviewRequest

section ExampleData

/-- Fleet worksheet of the end-to-end scenario of the specification: header
row `City, scooter, car`, then rows for delhi (100 scooters, 50 cars) and
mumbai (200 scooters, blank car cell). -/
def exSheet0 : List (List Cell) :=
  [[Cell.str "City", Cell.str "scooter", Cell.str "car"],
   [Cell.str "delhi", Cell.num "100" 100, Cell.num "50" 50],
   [Cell.str "mumbai", Cell.num "200" 200, Cell.str ""]]

/-- Reference worksheet of the end-to-end scenario: the `Vehicle Mix` marker
at row 1, a single scooter spec row (30 km per day, 20 wh per km), and the
station capacity 1000 in cell H5 (row 4, column 7). -/
def exSheet1 : List (List Cell) :=
  [[Cell.str ""],
   [Cell.str "Vehicle Mix", Cell.str "Avg. km per day", Cell.str "Energy per km"],
   [Cell.str "scooter", Cell.num "30" 30, Cell.num "20" 20],
   [Cell.str ""],
   [Cell.str "", Cell.str "", Cell.str "", Cell.str "", Cell.str "",
    Cell.str "", Cell.str "", Cell.num "1000" 1000]]

/-- Entities of the end-to-end scenario: delhi at 80 percent utilization and
20 percent off-road, mumbai at 75 and 15 (the fractions 0.8, 0.2, 0.75,
0.15 of the specification scenario, expressed as the percentage values the
code divides by 100). -/
def exEntities : Entities :=
  [("delhi", { stationUtilizationPercentage := some 80,
               offRoadVehiclePercentage := some 20 }),
   ("mumbai", { stationUtilizationPercentage := some 75,
                offRoadVehiclePercentage := some 15 })]

/-- The parsed spec table of the example reference worksheet. -/
def exSpecs : SpecTable :=
  [("scooter", { avgKmPerDay := some 30, whPerKm := some 20 })]

/-- The result entry the pipeline produces for delhi in the end-to-end
scenario: energy 48 kWh, and a rounded stations-required display value of 0
(the raw value is 0.06). -/
def exDelhiResult : ResultRow :=
  { city := "delhi", totalVehicles := 150, operationalVehicles := 120,
    energyRequired := some 48, swappableEnergyPerStation := 1000,
    stationsRequired := some 0 }

/-- The result entry the pipeline produces for mumbai in the end-to-end
scenario: energy 102 kWh, rounded stations-required 0 (raw 0.136). -/
def exMumbaiResult : ResultRow :=
  { city := "mumbai", totalVehicles := 200, operationalVehicles := 170,
    energyRequired := some 102, swappableEnergyPerStation := 1000,
    stationsRequired := some 0 }

/-- Fleet worksheet for the aggregation counterexample: two cities, each
with 100 scooters. -/
def cexSheet0 : List (List Cell) :=
  [[Cell.str "City", Cell.str "scooter"],
   [Cell.str "avalon", Cell.num "100" 100],
   [Cell.str "braemar", Cell.num "100" 100]]

/-- Entities for the aggregation counterexample: both cities at 10 percent
utilization and 0 percent off-road, so each city needs 0.6 stations raw. -/
def cexEntities : Entities :=
  [("avalon", { stationUtilizationPercentage := some 10,
                offRoadVehiclePercentage := some 0 }),
   ("braemar", { stationUtilizationPercentage := some 10,
                 offRoadVehiclePercentage := some 0 })]

/-- The per-city result entry of the aggregation counterexample: raw
stations-required 0.6, reported (rounded) value 1. -/
def cexRow (city : String) : ResultRow :=
  { city := city, totalVehicles := 100, operationalVehicles := 100,
    energyRequired := some 60, swappableEnergyPerStation := 1000,
    stationsRequired := some 1 }

/-- Reference worksheet whose capacity cell H5 holds text that does not
parse as an integer. -/
def c8Sheet1 : List (List Cell) :=
  [[Cell.str ""],
   [Cell.str "Vehicle Mix", Cell.str "Avg. km per day", Cell.str "Energy per km"],
   [Cell.str "scooter", Cell.num "30" 30, Cell.num "20" 20],
   [Cell.str ""],
   [Cell.str "", Cell.str "", Cell.str "", Cell.str "", Cell.str "",
    Cell.str "", Cell.str "", Cell.str "N/A"]]

/-- Reference worksheet whose capacity cell H5 parses to the integer 0. -/
def c8zSheet1 : List (List Cell) :=
  [[Cell.str ""],
   [Cell.str "Vehicle Mix", Cell.str "Avg. km per day", Cell.str "Energy per km"],
   [Cell.str "scooter", Cell.num "30" 30, Cell.num "20" 20],
   [Cell.str ""],
   [Cell.str "", Cell.str "", Cell.str "", Cell.str "", Cell.str "",
    Cell.str "", Cell.str "", Cell.num "0" 0]]

/-- Delhi result entry under a zero station capacity: the zero-division
fallback makes stations-required exactly 0. -/
def zcapDelhiResult : ResultRow :=
  { city := "delhi", totalVehicles := 150, operationalVehicles := 120,
    energyRequired := some 48, swappableEnergyPerStation := 0,
    stationsRequired := some 0 }

/-- Mumbai result entry under a zero station capacity. -/
def zcapMumbaiResult : ResultRow :=
  { city := "mumbai", totalVehicles := 200, operationalVehicles := 170,
    energyRequired := some 102, swappableEnergyPerStation := 0,
    stationsRequired := some 0 }

/-- A spec table whose single entry has a non-numeric energy-per-km cell,
parsed by the lenient loader to NaN. -/
def nanSpecs : SpecTable :=
  [("scooter", { avgKmPerDay := some 30, whPerKm := none })]

/-- Reference worksheet whose scooter row has a non-numeric energy-per-km
cell (parsed to NaN by the coercing loader). -/
def c9Sheet1 : List (List Cell) :=
  [[Cell.str ""],
   [Cell.str "Vehicle Mix", Cell.str "Avg. km per day", Cell.str "Energy per km"],
   [Cell.str "scooter", Cell.num "30" 30, Cell.str "n/a"],
   [Cell.str ""],
   [Cell.str "", Cell.str "", Cell.str "", Cell.str "", Cell.str "",
    Cell.str "", Cell.str "", Cell.num "1000" 1000]]

end ExampleData

section HelperLemmas

/-- NaN absorbs addition on the left. -/
theorem pyAdd_none_left (x : PyFloat) : pyAdd none x = none := by
  cases x <;> rfl

/-- NaN absorbs addition on the right. -/
theorem pyAdd_none_right (x : PyFloat) : pyAdd x none = none := by
  cases x <;> rfl

/-- NaN absorbs multiplication on the left. -/
theorem pyMul_none_left (x : PyFloat) : pyMul none x = none := by
  cases x <;> rfl

/-- NaN absorbs multiplication on the right. -/
theorem pyMul_none_right (x : PyFloat) : pyMul x none = none := by
  cases x <;> rfl

/-- NaN absorbs division. -/
theorem pyDiv_none (d : ℚ) : pyDiv none d = none := rfl

/-- Rounding an exact zero to zero decimals gives zero. -/
theorem pyRound_zero : pyRound (some 0) 0 = some 0 := by
  norm_num [pyRound, pyRoundQ, rhe]

/-- Looking up a key different from the appended key ignores the appended
pair. -/
theorem lookup_append_right {β : Type} (l : List (String × β)) (k t : String)
    (v : β) (h : k ≠ t) : (l ++ [(t, v)]).lookup k = l.lookup k := by
  induction l with
  | nil =>
    simp only [List.nil_append, List.lookup]
    rw [show (k == t) = false from beq_eq_false_iff_ne.mpr h]
  | cons p rest ih =>
    simp only [List.cons_append, List.lookup]
    cases k == p.1 <;> simp [ih]

/-- A key whose lookup fails differs from every key of the list. -/
theorem lookup_none_keys {β : Type} (l : List (String × β)) (t : String)
    (h : l.lookup t = none) : ∀ p ∈ l, p.1 ≠ t := by
  induction l with
  | nil => intro p hp; cases hp
  | cons q rest ih =>
    intro p hp
    simp only [List.lookup] at h
    cases hq : t == q.1 with
    | true => rw [hq] at h; cases h
    | false =>
      rw [hq] at h
      rcases List.mem_cons.mp hp with rfl | hmem
      · intro he; rw [he] at hq; simp at hq
      · exact ih h p hmem

/-- Every element of a successful `mapExcept` output comes from applying the
function to some input element. -/
theorem mapExcept_ok_mem {α β : Type} (f : α → Except String β) (l : List α)
    (out : List β) (h : mapExcept f l = .ok out) :
    ∀ b ∈ out, ∃ a ∈ l, f a = .ok b := by
  induction l generalizing out with
  | nil =>
    simp only [mapExcept, Except.ok.injEq] at h
    subst h; intro b hb; cases hb
  | cons a as ih =>
    simp only [mapExcept] at h
    cases ha : f a with
    | error m => rw [ha] at h; cases h
    | ok b0 =>
      rw [ha] at h
      cases has : mapExcept f as with
      | error m => rw [has] at h; cases h
      | ok bs =>
        rw [has] at h
        simp only [Except.ok.injEq] at h
        subst h
        intro b hb
        rcases List.mem_cons.mp hb with rfl | hmem
        · exact ⟨a, List.mem_cons_self a as, ha⟩
        · obtain ⟨a2, ha2, hfa2⟩ := ih bs has b hmem
          exact ⟨a2, List.mem_cons_of_mem a ha2, hfa2⟩

/-- A failing head element fails the whole `mapExcept`. -/
theorem mapExcept_cons_error {α β : Type} (f : α → Except String β) (a : α)
    (as : List α) (m : String) (h : f a = .error m) :
    mapExcept f (a :: as) = .error m := by
  simp [mapExcept, h]

/-- The energy step starting from NaN stays NaN. -/
theorem energyStep_none (counts : List (String × ℚ)) (off : ℚ)
    (vs : String × VehicleSpec) : energyStep counts off none vs = none := by
  unfold energyStep
  cases counts.lookup vs.1 <;> simp [pyAdd_none_left]

/-- A NaN accumulator poisons the whole energy fold. -/
theorem foldl_energyStep_none (specs : SpecTable) (counts : List (String × ℚ))
    (off : ℚ) : specs.foldl (energyStep counts off) none = none := by
  induction specs with
  | nil => rfl
  | cons p rest ih => rw [List.foldl_cons, energyStep_none]; exact ih

/-- The energy step ignores an appended column whose name differs from the
spec entry processed. -/
theorem energyStep_append (counts : List (String × ℚ)) (off : ℚ) (t : String)
    (v : ℚ) (acc : PyFloat) (vs : String × VehicleSpec) (h : vs.1 ≠ t) :
    energyStep (counts ++ [(t, v)]) off acc vs = energyStep counts off acc vs := by
  unfold energyStep
  rw [lookup_append_right counts vs.1 t v h]

/-- The energy fold ignores an appended column whose name matches no spec
entry. -/
theorem foldl_energyStep_append (specs : SpecTable) (counts : List (String × ℚ))
    (off : ℚ) (t : String) (v : ℚ) (hall : ∀ p ∈ specs, p.1 ≠ t) :
    ∀ acc, specs.foldl (energyStep (counts ++ [(t, v)]) off) acc =
      specs.foldl (energyStep counts off) acc := by
  induction specs with
  | nil => intro acc; rfl
  | cons p rest ih =>
    intro acc
    rw [List.foldl_cons, List.foldl_cons,
      energyStep_append counts off t v acc p (hall p (List.mem_cons_self p rest))]
    exact ih (fun q hq => hall q (List.mem_cons_of_mem p hq)) _

/-- A spec entry with a NaN field whose vehicle type occurs in the row
poisons the energy fold from any accumulator. -/
theorem foldl_energyStep_poison (specs : SpecTable) (counts : List (String × ℚ))
    (off : ℚ) (t : String) (spec : VehicleSpec)
    (hs : specs.lookup t = some spec)
    (hnan : spec.avgKmPerDay = none ∨ spec.whPerKm = none)
    (c : ℚ) (hc : counts.lookup t = some c) :
    ∀ acc, specs.foldl (energyStep counts off) acc = none := by
  induction specs with
  | nil => cases hs
  | cons q rest ih =>
    intro acc
    simp only [List.lookup] at hs
    cases hq : t == q.1 with
    | true =>
      rw [hq] at hs
      have hteq : t = q.1 := beq_iff_eq.mp hq
      have hspec : q.2 = spec := by
        simpa using hs
      rw [List.foldl_cons]
      have hstep : energyStep counts off acc q = none := by
        unfold energyStep
        rw [← hteq, hc]
        rcases hnan with hn | hn
        · rw [hspec, hn]
          simp [pyMul_none_right, pyMul_none_left, pyDiv_none, pyAdd_none_right]
        · rw [hspec, hn]
          simp [pyMul_none_right, pyDiv_none, pyAdd_none_right]
      rw [hstep]
      exact foldl_energyStep_none rest counts off
    | false =>
      rw [hq] at hs
      rw [List.foldl_cons]
      exact ih hs _

/-- Inversion of a successful `processRow`: the produced entry is exactly the
record the loop body builds, for the looked-up off-road and utilization
fractions. -/
theorem processRow_ok_shape (entities : Entities) (cities : List String)
    (specs : SpecTable) (cap : ℤ) (row : FleetRow) (res : ResultRow)
    (h : processRow entities cities specs cap row = .ok res) :
    ∃ offR util,
      res = { city := row.city
              totalVehicles := totalVehiclesOfRow row
              operationalVehicles := totalVehiclesOfRow row * (1 - offR)
              energyRequired := pyRound (calculateCityEnergyDemand row specs offR) 2
              swappableEnergyPerStation := cap
              stationsRequired :=
                pyRound (stationsRequiredCalc (calculateCityEnergyDemand row specs offR)
                  cap util) 0 } := by
  unfold processRow at h
  split at h
  · cases h
  · rename_i params heq
    split at h
    · cases h
    · rename_i offR heq2
      split at h
      · cases h
      · rename_i util heq3
        simp only [Except.ok.injEq] at h
        exact ⟨offR, util, h.symm⟩

/-- A successful unfiltered fleet load from a source with at least one data
row yields a nonempty row list. -/
theorem fleet_all_ok_ne_nil (data : List (List Cell)) (rows : List FleetRow)
    (h : getVehicleDataFromSheets data ["all"] = .ok rows) : rows ≠ [] := by
  cases data with
  | nil => cases h
  | cons headers values =>
    simp only [getVehicleDataFromSheets] at h
    by_cases hv : values = []
    · rw [if_pos hv] at h; cases h
    · rw [if_neg hv, if_neg (by simp)] at h
      simp only [Except.ok.injEq] at h
      subst h
      simpa using hv

end HelperLemmas

/-- Claim C1: for every energy demand, station capacity, and utilization
value, if the station capacity and the utilization are both positive then the
stations-required value equals the energy demand divided by (capacity times
utilization); otherwise it equals 0 exactly, with no exception raised (the
guard makes the division total). -/
theorem claim_stations_required_formula (e : PyFloat) (cap : ℤ) (util : ℚ) :
    (0 < cap → 0 < util →
      stationsRequiredCalc e cap util = pyDiv e ((cap : ℚ) * util)) ∧
    (¬(0 < cap ∧ 0 < util) → stationsRequiredCalc e cap util = some 0) := by
  constructor
  · intro h1 h2
    unfold stationsRequiredCalc
    rw [if_pos ⟨h1, h2⟩]
  · intro h
    unfold stationsRequiredCalc
    rw [if_neg h]

/-- Witness for claim C1 at capacity 1000 with utilization 4/5 (positive
case) and at capacity 0 (fallback case). -/
theorem claim_stations_required_formula_witness :
    stationsRequiredCalc (some 48) 1000 (4/5) =
      pyDiv (some 48) (((1000 : ℤ) : ℚ) * (4/5)) ∧
    stationsRequiredCalc (some 48) 0 (4/5) = some 0 :=
  ⟨(claim_stations_required_formula (some 48) 1000 (4/5)).1 (by norm_num) (by norm_num),
   (claim_stations_required_formula (some 48) 0 (4/5)).2 (by norm_num)⟩

/-- Claim C3: on the end-to-end scenario (delhi with 100 scooters and 50
cars, mumbai with 200 scooters, scooter spec 30 km per day at 20 wh per km,
capacity 1000, utilizations 0.8 and 0.75, off-road fractions 0.2 and 0.15)
the pipeline computes delhi energy demand 48 kWh with raw stations-required
0.06, mumbai energy demand 102 kWh with raw stations-required 0.136, and a
reported total of 0 stations. -/
theorem claim_end_to_end_scenario :
    calculate_stations_required exSheet0 exSheet1 exEntities =
      .ok [exDelhiResult, exMumbaiResult] ∧
    calculateCityEnergyDemand ⟨"delhi", [("scooter", 100), ("car", 50)]⟩
      exSpecs (20/100) = some 48 ∧
    stationsRequiredCalc (some 48) 1000 (80/100) = some (6/100) ∧
    calculateCityEnergyDemand ⟨"mumbai", [("scooter", 200), ("car", 0)]⟩
      exSpecs (15/100) = some 102 ∧
    stationsRequiredCalc (some 102) 1000 (75/100) = some (136/1000) ∧
    calculate_swap_stations exEntities exSheet0 exSheet1 =
      .ok { cityBreakdown := [("delhi", exDelhiResult), ("mumbai", exMumbaiResult)],
            totalStationsRequired := 0 } := by
  refine ⟨?_, ?_, ?_, ?_, ?_, ?_⟩
  · simp [calculate_stations_required, citiesOf, List.isEmpty, getVehicleDataFromSheets, getSwappableEnergy,
      processRow, lookupEntity, divBy100, calculateCityEnergyDemand, energyStep,
      stationsRequiredCalc, totalVehiclesOfRow, pyRound, pyRoundQ, rhe, pyAdd, pyMul,
      pyDiv, capInt, Cell.toCount, Cell.toNumeric, Cell.text, containsMarker,
      containsChars, startsChars, normalizeCity, pyLower, lowerChar, dropWS, isPySpace,
      exSheet0, exSheet1, exEntities, exSpecs, List.lookup, List.findIdx?, mapExcept,
      exDelhiResult, exMumbaiResult]
    norm_num [Int.fract]
  · simp [calculateCityEnergyDemand, energyStep, exSpecs, List.lookup, pyAdd, pyMul, pyDiv]
    norm_num
  · unfold stationsRequiredCalc
    rw [if_pos (by norm_num)]
    norm_num [pyDiv]
  · simp [calculateCityEnergyDemand, energyStep, exSpecs, List.lookup, pyAdd, pyMul, pyDiv]
    norm_num
  · unfold stationsRequiredCalc
    rw [if_pos (by norm_num)]
    norm_num [pyDiv]
  · simp [calculate_swap_stations, calculate_stations_required, citiesOf, List.isEmpty, getVehicleDataFromSheets,
      getSwappableEnergy, processRow, lookupEntity, divBy100, calculateCityEnergyDemand,
      energyStep, stationsRequiredCalc, totalVehiclesOfRow, pyRound, pyRoundQ, rhe,
      pyAdd, pyMul, pyDiv, capInt, Cell.toCount, Cell.toNumeric, Cell.text,
      containsMarker, containsChars, startsChars, normalizeCity, pyLower, lowerChar,
      dropWS, isPySpace, exSheet0, exSheet1, exEntities, exSpecs, List.lookup,
      List.findIdx?, mapExcept, pyIntOfFloat, truncQ, exDelhiResult, exMumbaiResult]
    norm_num [Int.fract]

/-- Claim C7: for every entities map and every data-source state, the
entrypoint either returns a result payload or converts the pipeline's
exception into an error payload with the same message — it never lets an
exception escape (the outcome type is total over all inputs). -/
theorem claim_swap_stations_never_raises (entities : Entities)
    (sheet0 sheet1 : List (List Cell)) :
    (∀ m, calculate_stations_required sheet0 sheet1 entities = .error m →
      calculate_swap_stations entities sheet0 sheet1 = .error m) ∧
    ((∃ r, calculate_swap_stations entities sheet0 sheet1 = .ok r) ∨
     (∃ m, calculate_swap_stations entities sheet0 sheet1 = .error m)) := by
  constructor
  · intro m hm
    unfold calculate_swap_stations
    rw [hm]
  · cases hcalc : calculate_stations_required sheet0 sheet1 entities with
    | error m => exact .inr ⟨m, by simp only [calculate_swap_stations, hcalc]⟩
    | ok rows =>
      cases htot : pyIntOfFloat
          (rows.foldl (fun acc r => pyAdd acc r.stationsRequired) (some 0)) with
      | error m =>
        exact .inr ⟨m, by simp only [calculate_swap_stations, hcalc, htot]⟩
      | ok total =>
        exact .inl ⟨{ cityBreakdown := rows.map (fun r => (r.city, r))
                      totalStationsRequired := total },
          by simp only [calculate_swap_stations, hcalc, htot]⟩

/-- Witness for claim C7: an unreachable fleet source (an empty grid) makes
the pipeline raise, and the entrypoint returns the corresponding error
payload. -/
theorem claim_swap_stations_never_raises_witness :
    calculate_swap_stations [] [] [] = .error "Insufficient data in Google Sheets" :=
  (claim_swap_stations_never_raises [] [] []).1 _ rfl

/-- Claim C10: calling the entrypoint with an empty entities map always
produces an error payload, for every data-source state: the city filter
defaults to the sentinel list, no row filtering occurs, but the parameter
lookup under the key `all` finds no entry in the empty dict and raises,
which the entrypoint converts to the error payload (never a full-fleet
calculation, never an uncaught exception). -/
theorem claim_empty_entities_error (sheet0 sheet1 : List (List Cell)) :
    ∃ m, calculate_swap_stations [] sheet0 sheet1 = .error m := by
  suffices h : ∃ m, calculate_stations_required sheet0 sheet1 [] = .error m by
    obtain ⟨m, hm⟩ := h
    refine ⟨m, ?_⟩
    unfold calculate_swap_stations
    rw [hm]
  have hcities : citiesOf [] = ["all"] := rfl
  cases hdf : getVehicleDataFromSheets sheet0 ["all"] with
  | error m =>
    exact ⟨m, by simp only [calculate_stations_required, hcities, hdf]⟩
  | ok df =>
    cases href : getSwappableEnergy sheet1 with
    | error m =>
      exact ⟨m, by simp only [calculate_stations_required, hcities, hdf, href]⟩
    | ok ref =>
      cases hcap : capInt ref.1 with
      | error m =>
        exact ⟨m, by simp only [calculate_stations_required, hcities, hdf, href, hcap]⟩
      | ok cap =>
        have hne := fleet_all_ok_ne_nil sheet0 df hdf
        cases df with
        | nil => exact absurd rfl hne
        | cons r rs =>
          refine ⟨"AttributeError: NoneType object has no attribute get", ?_⟩
          simp only [calculate_stations_required, hcities, hdf, href, hcap]
          apply mapExcept_cons_error
          unfold processRow
          rw [if_neg (by simp)]
          rfl

/-- Claim C4: a vehicle type present in the fleet row but absent from the
vehicle-spec table contributes zero to the computed energy demand — appending
a column of an unrecognized vehicle type to a row never changes the result
(and the computation is a total function, so no error is raised). -/
theorem claim_unrecognized_column_no_effect (city : String)
    (counts : List (String × ℚ)) (vehicleSpecs : SpecTable) (offRoadPercent : ℚ)
    (t : String) (v : ℚ) (h : vehicleSpecs.lookup t = none) :
    calculateCityEnergyDemand ⟨city, counts ++ [(t, v)]⟩ vehicleSpecs offRoadPercent =
      calculateCityEnergyDemand ⟨city, counts⟩ vehicleSpecs offRoadPercent := by
  unfold calculateCityEnergyDemand
  exact foldl_energyStep_append vehicleSpecs counts offRoadPercent t v
    (lookup_none_keys vehicleSpecs t h) (some 0)

/-- Witness for claim C4: adding an unrecognized `car` column to a
scooter-only row leaves the delhi energy demand unchanged. -/
theorem claim_unrecognized_column_no_effect_witness :
    calculateCityEnergyDemand ⟨"delhi", [("scooter", 100)] ++ [("car", 50)]⟩
      exSpecs (1/5) =
      calculateCityEnergyDemand ⟨"delhi", [("scooter", 100)]⟩ exSpecs (1/5) :=
  claim_unrecognized_column_no_effect "delhi" [("scooter", 100)] exSpecs (1/5)
    "car" 50 (by simp [exSpecs, List.lookup])

/-- Claim C5: the reported total vehicle count of a successfully processed
row equals the sum of every numeric cell of that row — all count columns,
including vehicle types that do not appear in the spec table — and is
independent of the spec table used for the energy computation. -/
theorem claim_total_vehicles_all_columns (entities : Entities)
    (cities : List String) (vehicleSpecs : SpecTable) (cap : ℤ) (row : FleetRow)
    (res : ResultRow)
    (h : processRow entities cities vehicleSpecs cap row = .ok res) :
    res.totalVehicles = (row.counts.map (fun p => p.2)).sum := by
  obtain ⟨offR, util, hres⟩ :=
    processRow_ok_shape entities cities vehicleSpecs cap row res h
  rw [hres]
  rfl

/-- Witness for claim C5: the delhi row of the end-to-end scenario reports
150 total vehicles, the sum of its scooter and car columns even though
`car` is not in the spec table. -/
theorem claim_total_vehicles_all_columns_witness :
    exDelhiResult.totalVehicles =
      (([("scooter", (100 : ℚ)), ("car", 50)]).map (fun p => p.2)).sum :=
  claim_total_vehicles_all_columns exEntities ["delhi", "mumbai"] exSpecs 1000
    ⟨"delhi", [("scooter", 100), ("car", 50)]⟩ exDelhiResult (by
      simp [processRow, lookupEntity, divBy100, calculateCityEnergyDemand,
        energyStep, stationsRequiredCalc, totalVehiclesOfRow, pyRound, pyRoundQ,
        rhe, pyAdd, pyMul, pyDiv, List.lookup, exEntities, exSpecs, exDelhiResult]
      norm_num [Int.fract])

/-- Claim C6: a calculation-intent turn whose extracted entity map has a
location with a missing required field short-circuits: the per-location
missing-field message joins the missing field names with `and` (for `pune`
with both fields missing, exactly the message `Please provide station
utilization percentage and off road vehicle percentage for 'pune'.`), the
turn's outcome is the missing-info response whatever the confirmation state
and the data sources are (so neither the confirmation step nor the
calculation is invoked that turn). -/
theorem claim_missing_fields_short_circuit :
    (∀ conf s0 s1,
      calculateStationsTurn [⟨"pune", none, none⟩] conf s0 s1 =
        .missingInfo
          ("I need some more information to proceed with the calculation. Please provide the following details for each location:" ++
            "\n\n" ++
            "Please provide station utilization percentage and off road vehicle percentage for \x27pune\x27.")) ∧
    (∀ locs city params conf conf2 s0 s1 s02 s12,
      (city, params) ∈ buildEntityMap locs →
      (params.stationUtilizationPercentage = none ∨
        params.offRoadVehiclePercentage = none) →
      missingMessageFor city params ∈ missingInfoMessages (buildEntityMap locs) ∧
      calculateStationsTurn locs conf s0 s1 = calculateStationsTurn locs conf2 s02 s12 ∧
      ∃ m, calculateStationsTurn locs conf s0 s1 = .missingInfo m) := by
  constructor
  · intro conf s0 s1
    simp only [calculateStationsTurn]
    rw [if_pos (by decide)]
    decide
  · intro locs city params conf conf2 s0 s1 s02 s12 hmem hmiss
    have hfields : missingFieldsFor params ≠ [] := by
      rcases hmiss with hn | hn
      · unfold missingFieldsFor
        rw [hn]
        simp
      · unfold missingFieldsFor
        rw [hn]
        cases params.stationUtilizationPercentage <;> simp
    have hmsg : missingMessageFor city params ∈
        missingInfoMessages (buildEntityMap locs) := by
      unfold missingInfoMessages
      exact List.mem_filterMap.mpr ⟨(city, params), hmem, by rw [if_pos hfields]⟩
    have hne : missingInfoMessages (buildEntityMap locs) ≠ [] :=
      List.ne_nil_of_mem hmsg
    refine ⟨hmsg, ?_, ?_⟩
    · simp only [calculateStationsTurn]
      rw [if_pos hne, if_pos hne]
    · exact ⟨"I need some more information to proceed with the calculation. Please provide the following details for each location:" ++
        "\n\n" ++ String.intercalate "\n" (missingInfoMessages (buildEntityMap locs)),
        by simp only [calculateStationsTurn]; rw [if_pos hne]⟩

/-- Witness for claim C6: the `pune` extraction with both fields missing
produces its combined-fields message and a missing-info outcome that is
independent of the confirmation state and the data sources. -/
theorem claim_missing_fields_short_circuit_witness :
    missingMessageFor "pune" ⟨none, none⟩ ∈
      missingInfoMessages (buildEntityMap [⟨"pune", none, none⟩]) ∧
    calculateStationsTurn [⟨"pune", none, none⟩] .confirmed exSheet0 exSheet1 =
      calculateStationsTurn [⟨"pune", none, none⟩] .notConfirmed [] [] := by
  have h := (claim_missing_fields_short_circuit).2 [⟨"pune", none, none⟩]
    "pune" ⟨none, none⟩ .confirmed .notConfirmed exSheet0 exSheet1 [] []
    (by decide) (Or.inl rfl)
  exact ⟨h.1, h.2.1⟩

/-- Counterexample for claim C2: with two cities each needing 0.6 stations
raw, the code reports a total of 2 (it sums the per-location rounded values
1 + 1 and truncates), while truncating the sum of the raw per-location
stations-required values 0.6 + 0.6 = 1.2 gives 1 — so the reported total is
not the truncated sum of the per-location stationsRequired values. -/
theorem claim_total_not_trunc_of_raw_counterexample :
    calculate_swap_stations cexEntities cexSheet0 exSheet1 =
      .ok { cityBreakdown := [("avalon", cexRow "avalon"), ("braemar", cexRow "braemar")],
            totalStationsRequired := 2 } ∧
    stationsRequiredCalc
      (calculateCityEnergyDemand ⟨"avalon", [("scooter", 100)]⟩ exSpecs 0)
      1000 (10/100) = some (6/10) ∧
    truncQ (6/10 + 6/10) = 1 := by
  refine ⟨?_, ?_, ?_⟩
  · simp [calculate_swap_stations, calculate_stations_required, citiesOf, List.isEmpty,
      getVehicleDataFromSheets, getSwappableEnergy, processRow, lookupEntity, divBy100,
      calculateCityEnergyDemand, energyStep, stationsRequiredCalc, totalVehiclesOfRow,
      pyRound, pyRoundQ, rhe, pyAdd, pyMul, pyDiv, capInt, Cell.toCount, Cell.toNumeric,
      Cell.text, containsMarker, containsChars, startsChars, normalizeCity, pyLower,
      lowerChar, dropWS, isPySpace, cexSheet0, exSheet1, cexEntities, exSpecs,
      List.lookup, List.findIdx?, mapExcept, pyIntOfFloat, truncQ, cexRow]
    norm_num [Int.fract]
  · have he : calculateCityEnergyDemand ⟨"avalon", [("scooter", 100)]⟩ exSpecs 0 =
        some 60 := by
      simp [calculateCityEnergyDemand, energyStep, exSpecs, List.lookup, pyAdd,
        pyMul, pyDiv]
      norm_num
    rw [he]
    unfold stationsRequiredCalc
    rw [if_pos (by norm_num)]
    norm_num [pyDiv]
  · norm_num [truncQ]

/-- Claim C2 amended: the reported total is the Python `int()` truncation of
the sum of the per-location *reported* (rounded to zero decimals)
`stations_required` fields of the breakdown — not of the raw per-location
stations-required values. -/
theorem claim_total_is_trunc_of_rounded (entities : Entities)
    (sheet0 sheet1 : List (List Cell)) (res : FinalResult)
    (h : calculate_swap_stations entities sheet0 sheet1 = .ok res) :
    pyIntOfFloat
      ((res.cityBreakdown.map (fun p => p.2.stationsRequired)).foldl pyAdd (some 0)) =
      .ok res.totalStationsRequired := by
  unfold calculate_swap_stations at h
  split at h
  · cases h
  · rename_i rows heq
    split at h
    · cases h
    · rename_i total htot
      simp only [SwapOutcome.ok.injEq] at h
      subst h
      simp only [List.map_map]
      have hmap : (fun p => (p : String × ResultRow).2.stationsRequired) ∘
          (fun r => (r.city, r)) = fun r : ResultRow => r.stationsRequired := rfl
      rw [hmap, List.foldl_map]
      exact htot

/-- Witness for the amended claim C2 at the two-city counterexample input:
the truncated sum of the reported per-city values 1 and 1 is the reported
total 2. -/
theorem claim_total_is_trunc_of_rounded_witness :
    pyIntOfFloat
      ((([("avalon", cexRow "avalon"), ("braemar", cexRow "braemar")]).map
        (fun p => p.2.stationsRequired)).foldl pyAdd (some 0)) = .ok 2 :=
  claim_total_is_trunc_of_rounded cexEntities cexSheet0 exSheet1
    { cityBreakdown := [("avalon", cexRow "avalon"), ("braemar", cexRow "braemar")],
      totalStationsRequired := 2 }
    (by
      simp [calculate_swap_stations, calculate_stations_required, citiesOf,
        List.isEmpty, getVehicleDataFromSheets, getSwappableEnergy, processRow,
        lookupEntity, divBy100, calculateCityEnergyDemand, energyStep,
        stationsRequiredCalc, totalVehiclesOfRow, pyRound, pyRoundQ, rhe, pyAdd,
        pyMul, pyDiv, capInt, Cell.toCount, Cell.toNumeric, Cell.text,
        containsMarker, containsChars, startsChars, normalizeCity, pyLower,
        lowerChar, dropWS, isPySpace, cexSheet0, exSheet1, cexEntities, exSpecs,
        List.lookup, List.findIdx?, mapExcept, pyIntOfFloat, truncQ, cexRow]
      norm_num [Int.fract])

/-- Counterexample for claim C8: a capacity cell whose text does not parse
as an integer makes `int()` raise inside the calculation, so the entrypoint
returns an error payload — not a result with stationsRequired 0 for every
location. -/
theorem claim_unparseable_capacity_counterexample :
    calculate_swap_stations exEntities exSheet0 c8Sheet1 =
      .error "invalid literal for int with base 10" := by
  simp [calculate_swap_stations, calculate_stations_required, citiesOf, List.isEmpty,
    getVehicleDataFromSheets, getSwappableEnergy, processRow, lookupEntity, divBy100,
    calculateCityEnergyDemand, energyStep, stationsRequiredCalc, totalVehiclesOfRow,
    pyRound, pyRoundQ, rhe, pyAdd, pyMul, pyDiv, capInt, Cell.toCount, Cell.toNumeric,
    Cell.text, containsMarker, containsChars, startsChars, normalizeCity, pyLower,
    lowerChar, dropWS, isPySpace, exSheet0, c8Sheet1, exEntities, exSpecs,
    List.lookup, List.findIdx?, mapExcept, pyIntOfFloat, truncQ]

/-- Claim C8 amended: a capacity cell parsing to a non-positive integer
yields the zero-division fallback (every reported stations-required value is
exactly 0), while a capacity cell that is unparseable as an integer makes
the calculation fail with an error instead. -/
theorem claim_capacity_fallback_amended (sheet0 sheet1 : List (List Cell))
    (entities : Entities) (capCell : Cell) (specs : SpecTable)
    (href : getSwappableEnergy sheet1 = .ok (capCell, specs)) :
    (∀ cap, capInt capCell = .ok cap → cap ≤ 0 →
      ∀ rows, calculate_stations_required sheet0 sheet1 entities = .ok rows →
        ∀ r ∈ rows, r.stationsRequired = some 0) ∧
    (∀ m, capInt capCell = .error m →
      ∃ m2, calculate_stations_required sheet0 sheet1 entities = .error m2) := by
  constructor
  · intro cap hcap hle rows hrows r hr
    unfold calculate_stations_required at hrows
    split at hrows
    · cases hrows
    · rename_i df hdf
      split at hrows
      · cases hrows
      · rename_i ref href2
        have hrefeq : ref = (capCell, specs) := by
          rw [href2] at href
          exact (Except.ok.injEq _ _).mp href
        subst hrefeq
        split at hrows
        · cases hrows
        · rename_i cap2 hcap2
          have h12 : capInt capCell = Except.ok cap2 := hcap2
          rw [hcap] at h12
          have hcapeq : cap2 = cap := ((Except.ok.injEq _ _).mp h12).symm
          subst hcapeq
          obtain ⟨row, hrowmem, hproc⟩ :=
            mapExcept_ok_mem _ df rows hrows r hr
          obtain ⟨offR, util, hres⟩ :=
            processRow_ok_shape entities (citiesOf entities) specs cap2 row r hproc
          rw [hres]
          show pyRound (stationsRequiredCalc
            (calculateCityEnergyDemand row specs offR) cap2 util) 0 = some 0
          unfold stationsRequiredCalc
          rw [if_neg (fun hcon => absurd hcon.1 (not_lt.mpr hle))]
          exact pyRound_zero
  · intro m hm
    cases hdf : getVehicleDataFromSheets sheet0 (citiesOf entities) with
    | error m2 => exact ⟨m2, by simp only [calculate_stations_required, hdf]⟩
    | ok df => exact ⟨m, by simp only [calculate_stations_required, hdf, href, hm]⟩

/-- Witness for the amended claim C8: with a capacity cell reading 0 the
end-to-end run succeeds and reports stations-required 0 for delhi, and with
the unparseable capacity cell the detailed calculation fails. -/
theorem claim_capacity_fallback_amended_witness :
    zcapDelhiResult.stationsRequired = some 0 ∧
    (∃ m2, calculate_stations_required exSheet0 c8Sheet1 exEntities = .error m2) := by
  have href0 : getSwappableEnergy c8zSheet1 = .ok (Cell.num "0" 0, exSpecs) := by
    simp [getSwappableEnergy, c8zSheet1, exSpecs, containsMarker, containsChars,
      startsChars, Cell.text, Cell.toNumeric, List.findIdx?]
  have href1 : getSwappableEnergy c8Sheet1 = .ok (Cell.str "N/A", exSpecs) := by
    simp [getSwappableEnergy, c8Sheet1, exSpecs, containsMarker, containsChars,
      startsChars, Cell.text, Cell.toNumeric, List.findIdx?]
  have hrun : calculate_stations_required exSheet0 c8zSheet1 exEntities =
      .ok [zcapDelhiResult, zcapMumbaiResult] := by
    simp [calculate_stations_required, citiesOf, List.isEmpty, getVehicleDataFromSheets,
      getSwappableEnergy, processRow, lookupEntity, divBy100, calculateCityEnergyDemand,
      energyStep, stationsRequiredCalc, totalVehiclesOfRow, pyRound, pyRoundQ, rhe,
      pyAdd, pyMul, pyDiv, capInt, Cell.toCount, Cell.toNumeric, Cell.text,
      containsMarker, containsChars, startsChars, normalizeCity, pyLower, lowerChar,
      dropWS, isPySpace, exSheet0, c8zSheet1, exEntities, exSpecs, List.lookup,
      List.findIdx?, mapExcept, zcapDelhiResult, zcapMumbaiResult]
    norm_num [Int.fract]
  constructor
  · exact (claim_capacity_fallback_amended exSheet0 c8zSheet1 exEntities
      (Cell.num "0" 0) exSpecs href0).1 0 (by norm_num [capInt]) le_rfl
      [zcapDelhiResult, zcapMumbaiResult] hrun zcapDelhiResult (by simp)
  · exact (claim_capacity_fallback_amended exSheet0 c8Sheet1 exEntities
      (Cell.str "N/A") exSpecs href1).2 "invalid literal for int with base 10" rfl

/-- Counterexample for claim C9: a spec entry whose energy-per-km cell is
non-numeric is parsed to NaN, and when its vehicle type occurs in the fleet
row the computed energy demand is NaN — not the 0 that excluding the entry
(as with an empty spec table) would give — and the end-to-end calculation
then fails when `int()` meets the NaN total. -/
theorem claim_nan_spec_counterexample :
    calculateCityEnergyDemand ⟨"delhi", [("scooter", 100)]⟩ nanSpecs (1/5) = none ∧
    calculateCityEnergyDemand ⟨"delhi", [("scooter", 100)]⟩ [] (1/5) = some 0 ∧
    calculate_swap_stations exEntities exSheet0 c9Sheet1 =
      .error "cannot convert float NaN to integer" := by
  refine ⟨?_, rfl, ?_⟩
  · simp [calculateCityEnergyDemand, energyStep, nanSpecs, List.lookup, pyAdd,
      pyMul, pyDiv]
  · simp [calculate_swap_stations, calculate_stations_required, citiesOf, List.isEmpty,
      getVehicleDataFromSheets, getSwappableEnergy, processRow, lookupEntity, divBy100,
      calculateCityEnergyDemand, energyStep, stationsRequiredCalc, totalVehiclesOfRow,
      pyRound, pyRoundQ, rhe, pyAdd, pyMul, pyDiv, capInt, Cell.toCount, Cell.toNumeric,
      Cell.text, containsMarker, containsChars, startsChars, normalizeCity, pyLower,
      lowerChar, dropWS, isPySpace, exSheet0, c9Sheet1, exEntities, nanSpecs,
      List.lookup, List.findIdx?, mapExcept, pyIntOfFloat, truncQ]

/-- Claim C9 amended: a spec-table entry with a missing or non-numeric
numeric field is parsed to NaN, and whenever its vehicle type occurs in the
fleet row, the whole computed city energy demand is NaN (the entry is not
excluded; it corrupts the sum, and the later `int()` on the stations total
fails); the entry contributes nothing only when its vehicle type is absent
from the fleet row. -/
theorem claim_nan_spec_poisons (row : FleetRow) (specs : SpecTable) (off : ℚ)
    (t : String) (spec : VehicleSpec)
    (hs : specs.lookup t = some spec)
    (hnan : spec.avgKmPerDay = none ∨ spec.whPerKm = none)
    (c : ℚ) (hc : row.counts.lookup t = some c) :
    calculateCityEnergyDemand row specs off = none := by
  unfold calculateCityEnergyDemand
  exact foldl_energyStep_poison specs row.counts off t spec hs hnan c hc (some 0)

/-- Witness for the amended claim C9: the scooter entry with a NaN
energy-per-km field poisons the energy demand of a row with 100 scooters. -/
theorem claim_nan_spec_poisons_witness :
    calculateCityEnergyDemand ⟨"mumbai", [("scooter", 200)]⟩ nanSpecs (15/100) = none :=
  claim_nan_spec_poisons ⟨"mumbai", [("scooter", 200)]⟩ nanSpecs (15/100)
    "scooter" { avgKmPerDay := some 30, whPerKm := none }
    (by simp [nanSpecs, List.lookup]) (Or.inr rfl) 200 (by simp [List.lookup])

end StationPlanning
